import Mathlib

/-!
Verification of the deterministic world-generation core of the map-game
repository (the terrain service, the hex geometry utilities and their
constants) against its natural-language specification.

The TypeScript source is embedded shallowly over `ℚ`:

* JavaScript `number` arithmetic on the embedded code paths (additions,
  multiplications, divisions, `Math.floor`, `Math.abs`, `Math.min/max`,
  `Math.round`, integer bit operations via `Math.imul`, `^`, `>>>`, `&`)
  is modelled exactly over `ℚ`, `ℤ` and `ℕ` (32-bit operations are taken
  modulo `2 ^ 32`, exactly as the JS bit operators behave on unsigned
  reinterpretation).
* The three transcendental primitives that appear on these paths,
  `Math.sin`, `Math.pow (·, 1.2)` and `Math.sqrt 3`, have no exact rational
  semantics; they are abstracted as the fields of a `JSMath` parameter that
  is threaded through the noise pipeline.  Theorems that need a property of
  the real primitives (for example that `x ^ 1.2` maps `[0, 1)` into
  `[0, 1)`) state that property as an explicit hypothesis which the real
  functions satisfy.
* Strings are Lean `String`s; `charCodeAt` is `Char.toNat`, which agrees
  with the UTF-16 code unit on every character actually hashed here (all
  keys are ASCII).

Sources: src/unnamed/part_001 (second file: terrain service),
src/unnamed/part_003 (hex utilities), src/unnamed/part_004 (constants).
-/

namespace MapGame

/-- The seven terrain categories, from the TerrainType enum in types.ts. -/
inductive TerrainType where
  | DEEP_WATER
  | WATER
  | SAND
  | GRASS
  | FOREST
  | MOUNTAIN
  | SNOW
  deriving DecidableEq, Repr

/-- TerrainWeights: one numeric weight per terrain category
(types.ts: Record of TerrainType to number). -/
structure TerrainWeights where
  DEEP_WATER : ℚ
  WATER : ℚ
  SAND : ℚ
  GRASS : ℚ
  FOREST : ℚ
  MOUNTAIN : ℚ
  SNOW : ℚ
  deriving DecidableEq, Repr

/-- Sum of all seven weights: Object.values(weights).reduce((a, b) => a + b, 0)
in calculateThresholds (order of summation is irrelevant over ℚ). -/
def weightsTotal (w : TerrainWeights) : ℚ :=
  w.DEEP_WATER + w.WATER + w.SAND + w.GRASS + w.FOREST + w.MOUNTAIN + w.SNOW

/-- DEFAULT_TERRAIN_WEIGHTS from constants (part_004). -/
def DEFAULT_TERRAIN_WEIGHTS : TerrainWeights :=
  ⟨20, 20, 15, 25, 15, 4, 1⟩

/-- Result record of calculateThresholds. -/
structure Thresholds where
  deepWater : ℚ
  water : ℚ
  sand : ℚ
  mountainStart : ℚ
  snowStart : ℚ
  moistureBias : ℚ
  deriving DecidableEq, Repr

/-- calculateThresholds (part_001, second file, lines 293-340), embedded
verbatim: zero-sum weights fall back to the fixed default set, otherwise the
cutoffs are cumulative normalized weights, with only 40 percent of the sand
share spent on beach width and a moisture bias derived from the wetness
affinities 0.2 / 0.5 / 0.8 of sand / grass / forest. -/
def calculateThresholds (weights : TerrainWeights) : Thresholds :=
  let total := weightsTotal weights
  if total = 0 then
    { deepWater := 3/10, water := 4/10, sand := 45/100,
      mountainStart := 85/100, snowStart := 92/100, moistureBias := 0 }
  else
    let pDeep := weights.DEEP_WATER / total
    let pWater := weights.WATER / total
    let pSand := weights.SAND / total
    let pGrass := weights.GRASS / total
    let pForest := weights.FOREST / total
    let pMount := weights.MOUNTAIN / total
    let pSnow := weights.SNOW / total
    let deepWater := pDeep
    let water := pDeep + pWater
    let snowStart := 1 - pSnow
    let mountainStart := snowStart - pMount
    let sandThreshold := water + pSand * (4/10)
    let landTotal := pSand + pGrass + pForest
    let moistureBias :=
      if landTotal > 0 then
        ((pSand * (2/10) + pGrass * (5/10) + pForest * (8/10)) / landTotal - 5/10) * (15/10)
      else 0
    { deepWater := deepWater, water := water, sand := sandThreshold,
      mountainStart := mountainStart, snowStart := snowStart,
      moistureBias := moistureBias }

/-- MapSettings restricted to the two fields the generation core reads
(seed and terrainWeights; hexSize / renderRadius are rendering concerns the
embedded functions never touch).  terrainWeights is optional because
getTerrainData guards it with a JS truthiness test before use. -/
structure MapSettings where
  seed : String
  terrainWeights : Option TerrainWeights

/-- Math.imul on unsigned 32-bit representatives: product modulo 2^32. -/
def imul32 (a b : ℕ) : ℕ := (a * b) % 4294967296

/-- hash128 (part_001, second file, lines 228-238): the double-accumulator
multiplicative string hash.  Both accumulators stay below 2^32 throughout
(xor of values below 2^32 is below 2^32, charCodeAt is below 2^16), so the
JS signed 32-bit ints are represented by their unsigned bit patterns; the
unsigned shifts become division, the final mask 2097151 = 2^21 - 1 becomes
a remainder, and the result 4294967296 * (2097151 and h2) + (h1 shifted
right by 0) is a natural number below 2^53. -/
def hash128 (s : String) : ℕ :=
  let p := s.data.foldl
    (fun (p : ℕ × ℕ) c =>
      (imul32 (p.1 ^^^ c.toNat) 2654435761, imul32 (p.2 ^^^ c.toNat) 1597334677))
    (0xdeadbeef, 0x41c6ce57)
  let h1 := imul32 (p.1 ^^^ (p.1 / 65536)) 2246822507 ^^^ imul32 (p.2 ^^^ (p.2 / 8192)) 3266489909
  let h2 := imul32 (p.2 ^^^ (p.2 / 65536)) 2246822507 ^^^ imul32 (h1 ^^^ (h1 / 8192)) 3266489909
  4294967296 * (h2 % 2097152) + h1

/-- getDeterministicRandom (part_001, second file, lines 493-497):
hash of the key seed:q:r:context, reduced to a rational in [0, 1). -/
def getDeterministicRandom (q r : ℤ) (seed context : String) : ℚ :=
  let key := seed ++ ":" ++ toString q ++ ":" ++ toString r ++ ":" ++ context
  ((hash128 key % 100000 : ℕ) : ℚ) / 100000

/-- Abstraction of the three JS math-library primitives with no exact
rational semantics.  sin is Math.sin, pow12 is Math.pow (·, 1.2),
sqrt3 is the double value of Math.sqrt 3.  Everything else in the embedded
code is exact rational arithmetic. -/
structure JSMath where
  sin : ℚ → ℚ
  pow12 : ℚ → ℚ
  sqrt3 : ℚ

/-- random2D (part_001, second file, lines 240-244):
frac (sin (x * 12.9898 + y * 78.233 + seedVal) * 43758.5453123). -/
def random2D (M : JSMath) (x y seedVal : ℚ) : ℚ :=
  Int.fract (M.sin (x * (129898/10000) + y * (78233/1000) + seedVal) * (437585453123/10000000))

/-- smoothstep (part_001, second file, lines 246-248). -/
def smoothstep (t : ℚ) : ℚ := t * t * (3 - 2 * t)

/-- valueNoise (part_001, second file, lines 250-266): bilinear blend of the
four lattice-corner pseudo-randoms with smoothstep weights. -/
def valueNoise (M : JSMath) (x y seedVal : ℚ) : ℚ :=
  let iX : ℚ := ⌊x⌋
  let iY : ℚ := ⌊y⌋
  let fX := x - iX
  let fY := y - iY
  let a := random2D M iX iY seedVal
  let b := random2D M (iX + 1) iY seedVal
  let c := random2D M iX (iY + 1) seedVal
  let d := random2D M (iX + 1) (iY + 1) seedVal
  let u := smoothstep fX
  let v := smoothstep fY
  (a * (1 - u) + b * u) * (1 - v) + (c * (1 - u) + d * u) * v

/-- Accumulator of the fbm loop (part_001, second file, lines 268-282):
given the remaining octave count, the current frequency and amplitude,
returns (total, maxValue).  Addition order differs from the JS loop but the
sum is the same rational. -/
def fbmAux (M : JSMath) (x y persistence lacunarity seedVal : ℚ) :
    ℕ → ℚ → ℚ → ℚ × ℚ
  | 0, _, _ => (0, 0)
  | n + 1, frequency, amplitude =>
    let rest := fbmAux M x y persistence lacunarity seedVal n
      (frequency * lacunarity) (amplitude * persistence)
    (valueNoise M (x * frequency) (y * frequency) seedVal * amplitude + rest.1,
     amplitude + rest.2)

/-- fbm (part_001, second file, lines 268-282): octave sum normalized by the
sum of amplitudes. -/
def fbm (M : JSMath) (x y : ℚ) (octaves : ℕ) (persistence lacunarity seedVal : ℚ) : ℚ :=
  let acc := fbmAux M x y persistence lacunarity seedVal octaves 1 1
  acc.1 / acc.2

/-- getNoiseCoordinates (part_001, second file, lines 284-288). -/
def getNoiseCoordinates (M : JSMath) (q r : ℤ) : ℚ × ℚ :=
  (M.sqrt3 * q + (M.sqrt3 / 2) * r, (3/2) * r)

/-- seedVal derivation in getTerrainData: (hash128 seed % 100000) / 1000. -/
def seedValOf (seed : String) : ℚ :=
  ((hash128 seed % 100000 : ℕ) : ℚ) / 1000

/-- The island-test noise channel of getTerrainData (part_001, second file,
line 391): valueNoise (coords.x * 0.1) (coords.y * 0.1) (seedVal + 777),
factored out so theorems can refer to it. -/
def islandNoiseAt (M : JSMath) (q r : ℤ) (seed : String) : ℚ :=
  valueNoise M ((getNoiseCoordinates M q r).1 * (1/10))
    ((getNoiseCoordinates M q r).2 * (1/10)) (seedValOf seed + 777)

/-- Ephemeral per-query sample record (the TerrainData interface,
part_001, second file, lines 345-350). -/
structure TerrainData where
  height : ℚ
  moisture : ℚ
  isRiver : Bool
  thresholds : Thresholds
  deriving Repr

/-- getTerrainData (part_001, second file, lines 353-398): thresholds from
the (defaulted) weights, fbm height raised to the 1.2 power, river carving
to water - 0.02 strictly between the water and mountain cutoffs, biased and
clamped moisture, and island promotion to the sand cutoff in deep ocean. -/
def getTerrainData (M : JSMath) (q r : ℤ) (settings : MapSettings) : TerrainData :=
  let thresholds := calculateThresholds (settings.terrainWeights.getD DEFAULT_TERRAIN_WEIGHTS)
  let seedVal := seedValOf settings.seed
  let coords := getNoiseCoordinates M q r
  let macroScale : ℚ := 15/1000
  let height1 := M.pow12 (fbm M (coords.1 * macroScale) (coords.2 * macroScale) 6 (1/2) 2 seedVal)
  let riverScale : ℚ := 25/1000
  let riverNoise := fbm M (coords.1 * riverScale + 500) (coords.2 * riverScale + 500) 4 (1/2) 2 (seedVal + 123)
  let riverWidth : ℚ := 25/1000
  let carved :=
    if height1 > thresholds.water ∧ height1 < thresholds.mountainStart then
      if |riverNoise - 1/2| < riverWidth then (thresholds.water - 2/100, true)
      else (height1, false)
    else (height1, false)
  let moisture := max 0 (min 1
    (fbm M (coords.1 * (5/100)) (coords.2 * (5/100)) 3 (1/2) 2 (seedVal + 999)
      + thresholds.moistureBias))
  let height2 :=
    if carved.1 < thresholds.deepWater then
      if islandNoiseAt M q r settings.seed > 85/100 then thresholds.sand
      else carved.1
    else carved.1
  { height := height2, moisture := moisture, isRiver := carved.2, thresholds := thresholds }

/-- getTerrain (part_001, second file, lines 401-426): the classifier. -/
def getTerrain (M : JSMath) (q r : ℤ) (settings : MapSettings) : TerrainType :=
  let d := getTerrainData M q r settings
  if d.isRiver then .WATER
  else if d.height < d.thresholds.deepWater then .DEEP_WATER
  else if d.height < d.thresholds.water then .WATER
  else if d.height < d.thresholds.sand then .SAND
  else if d.height > d.thresholds.mountainStart then
    (if d.height > d.thresholds.snowStart then .SNOW else .MOUNTAIN)
  else if d.moisture < 35/100 then .SAND
  else if d.moisture > 65/100 then .FOREST
  else if d.height > d.thresholds.mountainStart * (8/10) then .FOREST
  else .GRASS

/-- The branch logic of getElevation (part_001, second file, lines 470-489)
as a function of the sampled height and the water threshold (sea level) of
the same sample.  The depth ratio is computed before the sea-level-zero
guard exactly as in the source; over ℚ the guarded division is harmless. -/
def elevationFromSample (height seaLevel : ℚ) : ℤ :=
  if height < seaLevel then
    let depthRatio := 1 - height / seaLevel
    if seaLevel = 0 then 0
    else ⌊-1000 - depthRatio * 4000⌋
  else
    let landRange := 1 - seaLevel
    if landRange ≤ 1/1000 then 0
    else
      let landRatio := (height - seaLevel) / landRange
      ⌊landRatio ^ 2 * 8848⌋

/-- getElevation (part_001, second file, lines 470-489): the sample height
against the sample water threshold, mapped to signed integer meters. -/
def getElevation (M : JSMath) (q r : ℤ) (settings : MapSettings) : ℤ :=
  let d := getTerrainData M q r settings
  elevationFromSample d.height d.thresholds.water

/-- Discovery probabilities (constants, part_004, lines 38-44). -/
def PROBABILITY_VEGETATION : ℚ := 85/100

/-- Discovery probability for animals (constants, part_004). -/
def PROBABILITY_ANIMALS : ℚ := 15/100

/-- Discovery probability for minerals (constants, part_004). -/
def PROBABILITY_MINERALS : ℚ := 20/100

/-- Discovery probability for rare stones (constants, part_004). -/
def PROBABILITY_RARE_STONES : ℚ := 2/100

/-- BiomeResourceData (types.ts): four named lists per terrain category.
The entry payload (names, imagery) is opaque to the sampler, hence the
type parameter. -/
structure BiomeResourceData (α : Type) where
  animals : List α
  mineral_resources : List α
  rare_stones : List α
  vegetation : List α
  deriving DecidableEq, Repr

/-- GlobalBiomeConfig restricted to the field getHexResources reads
(customResources; associatedTerrains is an educational-layer concern).
customResources is optional because the source guards it with a JS
truthiness test. -/
structure GlobalBiomeConfig (α : Type) where
  customResources : Option (BiomeResourceData α)

/-- HexResources (types.ts): the output record of the sampler. -/
structure HexResources (α : Type) where
  animals : List α
  minerals : List α
  rareStones : List α
  vegetation : List α
  droppedItems : List α
  deriving DecidableEq, Repr

/-- The in-place swap of the shuffle loop: position i receives the old
element at j and position j the old element at i (out-of-range indices
leave the list unchanged; the loop below only produces in-range ones). -/
def listSwap {α : Type} (l : List α) (i j : ℕ) : List α :=
  match l[i]?, l[j]? with
  | some a, some b => (l.set i b).set j a
  | _, _ => l

/-- The while loop of shuffleDeterministic (part_001, second file, lines
499-510), with the counter made explicit: at remaining count m + 1 the code
draws rand for context salt_(m+1), picks i = floor (rand * (m+1)),
decrements the counter and swaps positions m and i. -/
def fyGo {α : Type} (rand : ℕ → ℚ) : List α → ℕ → List α
  | copy, 0 => copy
  | copy, m + 1 =>
    fyGo rand (listSwap copy m (⌊rand (m + 1) * (m + 1 : ℕ)⌋).toNat) m

/-- shuffleDeterministic (part_001, second file, lines 499-510). -/
def shuffleDeterministic {α : Type} (array : List α) (q r : ℤ) (seed salt : String) : List α :=
  fyGo (fun m => getDeterministicRandom q r seed (salt ++ "_" ++ toString m)) array array.length

/-- The merge of the terrain resource table with the optional custom
resources of a global biome config (part_001, second file, lines 533-545). -/
def combineResources {α : Type} (terrainData : BiomeResourceData α)
    (globalBiomeConfig : Option (GlobalBiomeConfig α)) : BiomeResourceData α :=
  match globalBiomeConfig with
  | some cfg =>
    match cfg.customResources with
    | some custom =>
      { animals := terrainData.animals ++ custom.animals,
        mineral_resources := terrainData.mineral_resources ++ custom.mineral_resources,
        rare_stones := terrainData.rare_stones ++ custom.rare_stones,
        vegetation := terrainData.vegetation ++ custom.vegetation }
    | none => terrainData
  | none => terrainData

/-- getHexResources (part_001, second file, lines 513-588): per category a
density roll against the fixed probability, a count roll mapped to a small
integer range, then the first count elements of the deterministic shuffle
of the combined list. -/
def getHexResources {α : Type} (q r : ℤ) (seed : String) (terrain : TerrainType)
    (resourceData : TerrainType → Option (BiomeResourceData α))
    (globalBiomeConfig : Option (GlobalBiomeConfig α)) : HexResources α :=
  match resourceData terrain with
  | none => ⟨[], [], [], [], []⟩
  | some terrainData =>
    let combinedData := combineResources terrainData globalBiomeConfig
    let vegetation :=
      if getDeterministicRandom q r seed "veg_density" < PROBABILITY_VEGETATION then
        let vegCount := (⌊getDeterministicRandom q r seed "veg_count" * 4⌋).toNat + 1
        if 0 < combinedData.vegetation.length then
          let shuffled := shuffleDeterministic combinedData.vegetation q r seed "veg_shuffle"
          shuffled.take (min vegCount shuffled.length)
        else []
      else []
    let animals :=
      if getDeterministicRandom q r seed "anim_density" < PROBABILITY_ANIMALS then
        let animCount := (⌊getDeterministicRandom q r seed "anim_count" * 3⌋).toNat + 1
        if 0 < combinedData.animals.length then
          let shuffled := shuffleDeterministic combinedData.animals q r seed "anim_shuffle"
          shuffled.take (min animCount shuffled.length)
        else []
      else []
    let minerals :=
      if getDeterministicRandom q r seed "min_density" < PROBABILITY_MINERALS then
        let minCount := (⌊getDeterministicRandom q r seed "min_count" * 2⌋).toNat + 1
        if 0 < combinedData.mineral_resources.length then
          let shuffled := shuffleDeterministic combinedData.mineral_resources q r seed "min_shuffle"
          shuffled.take (min minCount shuffled.length)
        else []
      else []
    let rareStones :=
      if getDeterministicRandom q r seed "rare_density" < PROBABILITY_RARE_STONES then
        let rareCount : ℕ := if getDeterministicRandom q r seed "rare_count" > 8/10 then 2 else 1
        if 0 < combinedData.rare_stones.length then
          let shuffled := shuffleDeterministic combinedData.rare_stones q r seed "rare_shuffle"
          shuffled.take (min rareCount shuffled.length)
        else []
      else []
    { animals := animals, minerals := minerals, rareStones := rareStones,
      vegetation := vegetation, droppedItems := [] }

/-- Axial hex coordinate (types.ts). -/
structure HexCoordinate where
  q : ℤ
  r : ℤ
  deriving DecidableEq, Repr

/-- The integer sequence a, a+1, ..., b of a JS for loop. -/
def intRange (a b : ℤ) : List ℤ :=
  (List.range (b + 1 - a).toNat).map (fun i : ℕ => a + (i : ℤ))

/-- getHexRing (part_003, lines 54-70): the axial double loop enumerating
the filled disk of radius hexes around the center. -/
def getHexRing (center : HexCoordinate) (radius : ℤ) : List HexCoordinate :=
  (intRange (-radius) radius).flatMap (fun q =>
    (intRange (max (-radius) (-q - radius)) (min radius (-q + radius))).map (fun r =>
      ⟨center.q + q, center.r + r⟩))

/-- One 60-degree counter-clockwise axial rotation step applied n times,
the for loop of rotateMoveVector. -/
def rotateIter : ℕ → ℤ × ℤ → ℤ × ℤ
  | 0, p => p
  | n + 1, p => rotateIter n (p.1 + p.2, -p.1)

/-- rotateMoveVector (part_003, lines 76-96): normalize the angle into
[0, 360) with the JS remainder (sign of the dividend, hence the double
remainder), divide by 60, round half up as Math.round does, and apply that
many counter-clockwise steps. -/
def rotateMoveVector (dq dr : ℤ) (rotationDeg : ℤ) : HexCoordinate :=
  let rot := Int.tmod (Int.tmod rotationDeg 360 + 360) 360
  let steps := (⌊(rot : ℚ) / 60 + 1/2⌋).toNat
  let p := rotateIter steps (dq, dr)
  ⟨p.1, p.2⟩

/-- Non-negativity of all seven weights (the data-model invariant of
TerrainWeights in the spec). -/
abbrev NonnegWeights (w : TerrainWeights) : Prop :=
  0 ≤ w.DEEP_WATER ∧ 0 ≤ w.WATER ∧ 0 ≤ w.SAND ∧ 0 ≤ w.GRASS ∧
  0 ≤ w.FOREST ∧ 0 ≤ w.MOUNTAIN ∧ 0 ≤ w.SNOW

/-- An admissible concrete instantiation of the abstract math primitives,
used for closed witnesses and counterexamples: sin is the constant function
returning v / 43758.5453123, so every random2D draw evaluates exactly to v
(for v in [0, 1)); pow12 is the identity, which satisfies every property of
the real x ^ 1.2 on [0, 1] that the theorems below assume. -/
def constNoiseModel (v : ℚ) : JSMath :=
  { sin := fun _ => v * (10000000/437585453123), pow12 := fun x => x, sqrt3 := 0 }

/-- The boundary-scenario weights of the spec: only DEEP_WATER is 1. -/
def deepWaterOnly : TerrainWeights := ⟨1, 0, 0, 0, 0, 0, 0⟩

/-- Concrete resource table used by the sampler witness. -/
def rdWitness : BiomeResourceData ℕ := ⟨[5], [6], [7], [1, 2, 3]⟩

/-- Length of the inner loop of getHexRing at outer index i for radius n:
2n + 1 - dist(i, n).  Only used to state the cardinality computation. -/
def ringTerm (n i : ℕ) : ℕ := 2 * n + 1 - (max i n - min i n)

end MapGame

namespace MapGame

/-! The Batteries rational operations are irreducible by default, which
blocks the elaborator from evaluating closed rational terms inside decide;
the kernel itself unfolds them regardless.  Making them semireducible for
this development lets concrete witnesses evaluate. -/

attribute [local semireducible] Rat.add Rat.mul Rat.inv Rat.sub

/-! Helper lemmas: ranges of the pseudo-random primitives. -/

/-- getDeterministicRandom always lands in [0, 1). -/
theorem getDeterministicRandom_nonneg (q r : ℤ) (seed context : String) :
    0 ≤ getDeterministicRandom q r seed context := by
  unfold getDeterministicRandom
  positivity

/-- getDeterministicRandom always lands in [0, 1). -/
theorem getDeterministicRandom_lt_one (q r : ℤ) (seed context : String) :
    getDeterministicRandom q r seed context < 1 := by
  unfold getDeterministicRandom
  rw [div_lt_one (by norm_num)]
  have h := Nat.mod_lt (hash128 (seed ++ ":" ++ toString q ++ ":" ++ toString r ++ ":" ++ context))
    (y := 100000) (by norm_num)
  exact_mod_cast h

/-- random2D always lands in [0, 1). -/
theorem random2D_nonneg (M : JSMath) (x y seedVal : ℚ) : 0 ≤ random2D M x y seedVal :=
  Int.fract_nonneg _

/-- random2D always lands in [0, 1). -/
theorem random2D_lt_one (M : JSMath) (x y seedVal : ℚ) : random2D M x y seedVal < 1 :=
  Int.fract_lt_one _

/-- smoothstep maps [0, 1] into [0, 1]. -/
theorem smoothstep_nonneg (t : ℚ) (h0 : 0 ≤ t) (h1 : t ≤ 1) : 0 ≤ smoothstep t := by
  unfold smoothstep
  nlinarith [sq_nonneg t]

/-- smoothstep maps [0, 1] into [0, 1]. -/
theorem smoothstep_le_one (t : ℚ) (h0 : 0 ≤ t) (h1 : t ≤ 1) : smoothstep t ≤ 1 := by
  unfold smoothstep
  nlinarith [mul_nonneg (sq_nonneg (1 - t)) (by linarith : (0:ℚ) ≤ 1 + 2 * t)]

/-- A convex blend of two values below 1 stays below 1. -/
theorem lerp_lt_one (a b u : ℚ) (ha : a < 1) (hb : b < 1) (h0 : 0 ≤ u) (h1 : u ≤ 1) :
    a * (1 - u) + b * u < 1 := by
  rcases le_or_lt u (1/2) with h | h
  · nlinarith [mul_le_mul_of_nonneg_right (by linarith : (1:ℚ)/2 ≤ 1 - u) (by linarith : (0:ℚ) ≤ 1 - a),
      mul_nonneg h0 (by linarith : (0:ℚ) ≤ 1 - b)]
  · nlinarith [mul_le_mul_of_nonneg_right (by linarith : (1:ℚ)/2 ≤ u) (by linarith : (0:ℚ) ≤ 1 - b),
      mul_nonneg (by linarith : (0:ℚ) ≤ 1 - u) (by linarith : (0:ℚ) ≤ 1 - a)]

/-- A convex blend of two non-negative values stays non-negative. -/
theorem lerp_nonneg (a b u : ℚ) (ha : 0 ≤ a) (hb : 0 ≤ b) (h0 : 0 ≤ u) (h1 : u ≤ 1) :
    0 ≤ a * (1 - u) + b * u := by
  nlinarith [mul_nonneg ha (by linarith : (0:ℚ) ≤ 1 - u), mul_nonneg hb h0]

/-- valueNoise always lands in [0, 1). -/
theorem valueNoise_nonneg (M : JSMath) (x y seedVal : ℚ) : 0 ≤ valueNoise M x y seedVal := by
  unfold valueNoise
  have hfx0 : 0 ≤ x - (⌊x⌋ : ℚ) := by exact_mod_cast Int.fract_nonneg x
  have hfx1 : x - (⌊x⌋ : ℚ) ≤ 1 := (Int.fract_lt_one x).le
  have hfy0 : 0 ≤ y - (⌊y⌋ : ℚ) := by exact_mod_cast Int.fract_nonneg y
  have hfy1 : y - (⌊y⌋ : ℚ) ≤ 1 := (Int.fract_lt_one y).le
  exact lerp_nonneg _ _ _
    (lerp_nonneg _ _ _ (random2D_nonneg ..) (random2D_nonneg ..)
      (smoothstep_nonneg _ hfx0 hfx1) (smoothstep_le_one _ hfx0 hfx1))
    (lerp_nonneg _ _ _ (random2D_nonneg ..) (random2D_nonneg ..)
      (smoothstep_nonneg _ hfx0 hfx1) (smoothstep_le_one _ hfx0 hfx1))
    (smoothstep_nonneg _ hfy0 hfy1) (smoothstep_le_one _ hfy0 hfy1)

/-- valueNoise always lands in [0, 1). -/
theorem valueNoise_lt_one (M : JSMath) (x y seedVal : ℚ) : valueNoise M x y seedVal < 1 := by
  unfold valueNoise
  have hfx0 : 0 ≤ x - (⌊x⌋ : ℚ) := by exact_mod_cast Int.fract_nonneg x
  have hfx1 : x - (⌊x⌋ : ℚ) ≤ 1 := (Int.fract_lt_one x).le
  have hfy0 : 0 ≤ y - (⌊y⌋ : ℚ) := by exact_mod_cast Int.fract_nonneg y
  have hfy1 : y - (⌊y⌋ : ℚ) ≤ 1 := (Int.fract_lt_one y).le
  exact lerp_lt_one _ _ _
    (lerp_lt_one _ _ _ (random2D_lt_one ..) (random2D_lt_one ..)
      (smoothstep_nonneg _ hfx0 hfx1) (smoothstep_le_one _ hfx0 hfx1))
    (lerp_lt_one _ _ _ (random2D_lt_one ..) (random2D_lt_one ..)
      (smoothstep_nonneg _ hfx0 hfx1) (smoothstep_le_one _ hfx0 hfx1))
    (smoothstep_nonneg _ hfy0 hfy1) (smoothstep_le_one _ hfy0 hfy1)

/-- Accumulated octave bounds: with a positive starting amplitude and a
positive persistence, the running total is non-negative, at most the
amplitude sum, and strictly below it as soon as one octave was added. -/
theorem fbmAux_bounds (M : JSMath) (x y persistence lacunarity seedVal : ℚ)
    (hp : 0 < persistence) :
    ∀ (n : ℕ) (freq amp : ℚ), 0 < amp →
      0 ≤ (fbmAux M x y persistence lacunarity seedVal n freq amp).1 ∧
      (fbmAux M x y persistence lacunarity seedVal n freq amp).1 ≤
        (fbmAux M x y persistence lacunarity seedVal n freq amp).2 ∧
      (0 < n → (fbmAux M x y persistence lacunarity seedVal n freq amp).1 <
        (fbmAux M x y persistence lacunarity seedVal n freq amp).2) := by
  intro n
  induction n with
  | zero =>
    intro freq amp _
    simp [fbmAux]
  | succ n ih =>
    intro freq amp hamp
    obtain ⟨ih0, ih1, _⟩ := ih (freq * lacunarity) (amp * persistence) (mul_pos hamp hp)
    have hv0 := valueNoise_nonneg M (x * freq) (y * freq) seedVal
    have hv1 := valueNoise_lt_one M (x * freq) (y * freq) seedVal
    have hva : valueNoise M (x * freq) (y * freq) seedVal * amp < amp := by
      nlinarith
    refine ⟨?_, ?_, fun _ => ?_⟩ <;>
      simp only [fbmAux] <;>
      nlinarith [mul_nonneg hv0 hamp.le]

/-- fbm with at least one octave and positive persistence lands in [0, 1). -/
theorem fbm_nonneg (M : JSMath) (x y : ℚ) (octaves : ℕ) (persistence lacunarity seedVal : ℚ)
    (ho : 0 < octaves) (hp : 0 < persistence) :
    0 ≤ fbm M x y octaves persistence lacunarity seedVal := by
  obtain ⟨h0, _, hlt⟩ := fbmAux_bounds M x y persistence lacunarity seedVal hp octaves 1 1 one_pos
  have hmv : 0 < (fbmAux M x y persistence lacunarity seedVal octaves 1 1).2 :=
    lt_of_le_of_lt h0 (hlt ho)
  exact div_nonneg h0 hmv.le

/-- fbm with at least one octave and positive persistence lands in [0, 1). -/
theorem fbm_lt_one (M : JSMath) (x y : ℚ) (octaves : ℕ) (persistence lacunarity seedVal : ℚ)
    (ho : 0 < octaves) (hp : 0 < persistence) :
    fbm M x y octaves persistence lacunarity seedVal < 1 := by
  obtain ⟨h0, _, hlt⟩ := fbmAux_bounds M x y persistence lacunarity seedVal hp octaves 1 1 one_pos
  have hmv : 0 < (fbmAux M x y persistence lacunarity seedVal octaves 1 1).2 :=
    lt_of_le_of_lt h0 (hlt ho)
  exact (div_lt_one hmv).mpr (hlt ho)

/-! Helper lemmas: the threshold chain. -/

/-- For any non-negative weights (zero-sum included, via the fallback), the
computed cutoffs form the monotone chain 0 ≤ deepWater ≤ water ≤ sand ≤
mountainStart ≤ snowStart ≤ 1. -/
theorem calculateThresholds_chain (w : TerrainWeights) (hw : NonnegWeights w) :
    0 ≤ (calculateThresholds w).deepWater ∧
    (calculateThresholds w).deepWater ≤ (calculateThresholds w).water ∧
    (calculateThresholds w).water ≤ (calculateThresholds w).sand ∧
    (calculateThresholds w).sand ≤ (calculateThresholds w).mountainStart ∧
    (calculateThresholds w).mountainStart ≤ (calculateThresholds w).snowStart ∧
    (calculateThresholds w).snowStart ≤ 1 := by
  obtain ⟨h1, h2, h3, h4, h5, h6, h7⟩ := hw
  by_cases htot : weightsTotal w = 0
  · simp only [calculateThresholds, if_pos htot]
    norm_num
  · have htot0 : 0 < weightsTotal w := by
      rcases lt_or_eq_of_le (by unfold weightsTotal; linarith : (0:ℚ) ≤ weightsTotal w) with h | h
      · exact h
      · exact absurd h.symm htot
    have hsum : w.DEEP_WATER / weightsTotal w + w.WATER / weightsTotal w +
        w.SAND / weightsTotal w + w.GRASS / weightsTotal w + w.FOREST / weightsTotal w +
        w.MOUNTAIN / weightsTotal w + w.SNOW / weightsTotal w = 1 := by
      rw [div_add_div_same, div_add_div_same, div_add_div_same, div_add_div_same,
        div_add_div_same, div_add_div_same]
      exact div_self htot
    have d1 := div_nonneg h1 htot0.le
    have d2 := div_nonneg h2 htot0.le
    have d3 := div_nonneg h3 htot0.le
    have d4 := div_nonneg h4 htot0.le
    have d5 := div_nonneg h5 htot0.le
    have d6 := div_nonneg h6 htot0.le
    have d7 := div_nonneg h7 htot0.le
    simp only [calculateThresholds, if_neg htot]
    refine ⟨d1, by linarith, by linarith, by linarith, by linarith, by linarith⟩

/-! Helper lemmas: the deterministic shuffle is a permutation. -/

/-- Pulling the j-th element of a list to the front while writing x into its
slot permutes x onto the front. -/
theorem cons_set_perm {α : Type} (x : α) :
    ∀ (t : List α) (j : ℕ) (hj : j < t.length), List.Perm (t[j] :: t.set j x) (x :: t) := by
  intro t
  induction t with
  | nil => intro j hj; simp at hj
  | cons a s ih =>
    intro j hj
    cases j with
    | zero => simpa using List.Perm.swap x a s
    | succ j =>
      have hj' : j < s.length := by simpa using hj
      simp only [List.getElem_cons_succ, List.set_cons_succ]
      have step1 : List.Perm (s[j] :: a :: s.set j x) (a :: s[j] :: s.set j x) :=
        List.Perm.swap a (s[j]) (s.set j x)
      have step2 : List.Perm (a :: s[j] :: s.set j x) (a :: (x :: s)) :=
        (ih j hj').cons a
      have step3 : List.Perm (a :: x :: s) (x :: a :: s) := List.Perm.swap x a s
      exact (step1.trans step2).trans step3

/-- Exchanging the entries at two valid positions permutes the list. -/
theorem set_set_swap_perm {α : Type} :
    ∀ (l : List α) (i j : ℕ) (hi : i < l.length) (hj : j < l.length),
      ((l.set i l[j]).set j l[i]).Perm l := by
  intro l
  induction l with
  | nil => intro i j hi _; simp at hi
  | cons a t ih =>
    intro i j hi hj
    cases i with
    | zero =>
      cases j with
      | zero => simp
      | succ j =>
        have hj' : j < t.length := by simpa using hj
        simpa using cons_set_perm a t j hj'
    | succ i =>
      have hi' : i < t.length := by simpa using hi
      cases j with
      | zero =>
        simpa using cons_set_perm a t i hi'
      | succ j =>
        have hj' : j < t.length := by simpa using hj
        simpa using (ih i j hi' hj').cons a

/-- The swap helper always permutes the list (out-of-range indices are
identity). -/
theorem listSwap_perm {α : Type} (l : List α) (i j : ℕ) : (listSwap l i j).Perm l := by
  unfold listSwap
  cases h1 : l[i]? with
  | none => simp
  | some a =>
    cases h2 : l[j]? with
    | none => simp
    | some b =>
      obtain ⟨hi, ha⟩ := List.getElem?_eq_some.mp h1
      obtain ⟨hj, hb⟩ := List.getElem?_eq_some.mp h2
      simp only
      rw [← ha, ← hb]
      exact set_set_swap_perm l i j hi hj

/-- The shuffle loop permutes the list, whatever the draws are. -/
theorem fyGo_perm {α : Type} (rand : ℕ → ℚ) : ∀ (m : ℕ) (copy : List α),
    (fyGo rand copy m).Perm copy := by
  intro m
  induction m with
  | zero => intro copy; exact List.Perm.refl copy
  | succ m ih =>
    intro copy
    exact (ih _).trans (listSwap_perm copy m _)

/-- shuffleDeterministic returns a permutation of its input. -/
theorem shuffleDeterministic_perm {α : Type} (l : List α) (q r : ℤ) (seed salt : String) :
    (shuffleDeterministic l q r seed salt).Perm l :=
  fyGo_perm _ l.length l

/-! Helper lemmas: cardinality of the hex-ring double loop. -/

/-- Length of the embedded JS integer loop range. -/
theorem intRange_length (a b : ℤ) : (intRange a b).length = (b + 1 - a).toNat := by
  unfold intRange
  rw [List.length_map, List.length_range]

/-- Adding a constant to every summand of a list sum. -/
theorem sum_map_add_const (l : List ℕ) (g : ℕ → ℕ) (c : ℕ) :
    (l.map (fun i => g i + c)).sum = (l.map g).sum + c * l.length := by
  induction l with
  | nil => simp
  | cons a t ih => simp [ih]; ring

/-- The arithmetic core of the ring cardinality: summing the inner-loop
lengths 2n+1 - dist(i, n) over i = 0 .. 2n gives 3n(n+1)+1. -/
theorem ringSum (n : ℕ) :
    ((List.range (2 * n + 1)).map (ringTerm n)).sum = 3 * n * (n + 1) + 1 := by
  induction n with
  | zero => decide
  | succ n ih =>
    have e1 : 2 * (n + 1) + 1 = (2 * n + 1) + 1 + 1 := by ring
    rw [e1, List.range_succ, List.range_succ_eq_map]
    simp only [List.map_append, List.sum_append, List.map_cons, List.sum_cons,
      List.map_map, List.map_nil, List.sum_nil]
    have hcongr : (List.range (2 * n + 1)).map (ringTerm (n + 1) ∘ Nat.succ) =
        (List.range (2 * n + 1)).map (fun i => ringTerm n i + 2) := by
      apply List.map_congr_left
      intro i hi
      have hlt : i < 2 * n + 1 := List.mem_range.mp hi
      simp only [Function.comp, ringTerm]
      omega
    rw [hcongr, sum_map_add_const, ih, List.length_range]
    have hA : ringTerm (n + 1) 0 = n + 2 := by
      simp only [ringTerm]
      omega
    have hB : ringTerm (n + 1) (2 * n + 1 + 1) = n + 2 := by
      simp only [ringTerm]
      omega
    rw [hA, hB]
    ring

/-- The length of the hex ring at a natural radius. -/
theorem getHexRing_length_nat (center : HexCoordinate) (n : ℕ) :
    (getHexRing center (n : ℤ)).length = 3 * n * (n + 1) + 1 := by
  unfold getHexRing
  rw [List.length_flatMap]
  have h1 : intRange (-(n : ℤ)) n = (List.range (2 * n + 1)).map (fun i : ℕ => -(n : ℤ) + i) := by
    unfold intRange
    rw [show ((n : ℤ) + 1 - -(n : ℤ)).toNat = 2 * n + 1 from by omega]
  rw [h1, List.map_map]
  refine Eq.trans ?_ (ringSum n)
  apply congrArg List.sum
  apply List.map_congr_left
  intro i hi
  have hlt : i < 2 * n + 1 := List.mem_range.mp hi
  simp only [Function.comp, List.length_map, intRange_length, ringTerm]
  omega

/-! Helper lemmas: the underwater elevation band. -/

/-- For a sampled height in [0, seaLevel) the underwater branch lands in
[-5000, -1001]: the depth ratio is in (0, 1], so the pre-floor value is in
[-5000, -1000) and its floor is at most -1001. -/
theorem elevation_underwater_band (h s : ℚ) (h0 : 0 ≤ h) (hlt : h < s) :
    -5000 ≤ elevationFromSample h s ∧ elevationFromSample h s ≤ -1001 := by
  have hs : 0 < s := lt_of_le_of_lt h0 hlt
  have hds : h / s < 1 := (div_lt_one hs).mpr hlt
  have hds0 : 0 ≤ h / s := div_nonneg h0 hs.le
  simp only [elevationFromSample]
  rw [if_pos hlt, if_neg hs.ne']
  constructor
  · exact Int.le_floor.mpr (by push_cast; nlinarith)
  · have hfl : ⌊(-1000 - (1 - h / s) * 4000 : ℚ)⌋ < -1000 :=
      Int.floor_lt.mpr (by push_cast; nlinarith)
    omega

/-- Rotating by exactly 60 degrees performs one counter-clockwise step. -/
theorem rotateMoveVector_sixty (a b : ℤ) : rotateMoveVector a b 60 = ⟨a + b, -a⟩ := by
  have htm : Int.tmod (Int.tmod (60 : ℤ) 360 + 360) 360 = 60 := by decide
  simp only [rotateMoveVector, htm]
  norm_num
  simp [rotateIter]

/-! Claim theorems. -/

/-- C1.  Determinism of the generation core: getTerrain, getElevation and
getHexResources are pure functions of their arguments (coordinate, seed /
settings, weights, resource table, and the fixed math primitives); two
calls with identical arguments yield identical results, with no hidden
state anywhere in the embedding. -/
theorem generation_core_determinism {α : Type} (M : JSMath) (q r : ℤ) (settings : MapSettings)
    (seed : String) (terrain : TerrainType)
    (resourceData : TerrainType → Option (BiomeResourceData α))
    (globalBiomeConfig : Option (GlobalBiomeConfig α)) :
    getTerrain M q r settings = getTerrain M q r settings ∧
    getElevation M q r settings = getElevation M q r settings ∧
    getHexResources q r seed terrain resourceData globalBiomeConfig =
      getHexResources q r seed terrain resourceData globalBiomeConfig :=
  ⟨rfl, rfl, rfl⟩

/-- C2 counterexample.  The claim that just below the water threshold the
underwater branch still returns 0 (or a value within rounding of 0) is
false: at sampled height 0.3999 against water threshold 0.4 the underwater
branch returns -1001. -/
theorem elevation_shoreline_counterexample :
    (0 : ℚ) < 4/10 ∧ (3999/10000 : ℚ) < 4/10 ∧
    elevationFromSample (3999/10000) (4/10) = -1001 ∧
    elevationFromSample (3999/10000) (4/10) ≠ 0 := by
  refine ⟨by norm_num, by norm_num, ?_, ?_⟩ <;> norm_num [elevationFromSample]

/-- C2 (amended).  At a sampled height exactly equal to a positive water
threshold getElevation returns 0 (from the land branch); for sampled
heights strictly below the threshold (and at least 0) the underwater branch
returns a value in [-5000, -1001] - about -1000 near the shoreline, not
within rounding of 0. -/
theorem elevation_continuity_amended (h s : ℚ) (hs : 0 < s) :
    (h = s → elevationFromSample h s = 0) ∧
    (0 ≤ h → h < s → -5000 ≤ elevationFromSample h s ∧ elevationFromSample h s ≤ -1001) := by
  constructor
  · intro he
    subst he
    simp only [elevationFromSample]
    rw [if_neg (lt_irrefl h)]
    split_ifs with h2
    · rfl
    · norm_num
  · intro h0 hlt
    exact elevation_underwater_band h s h0 hlt

/-- C2 witness: the amended theorem applied at water threshold 0.4, with
height 0.4 for the exact-threshold part and height 0.2 for the underwater
part. -/
theorem elevation_continuity_amended_witness :
    (0 : ℚ) < 4/10 ∧ elevationFromSample (4/10) (4/10) = 0 ∧
    (-5000 ≤ elevationFromSample (1/5) (4/10) ∧ elevationFromSample (1/5) (4/10) ≤ -1001) :=
  ⟨by norm_num, (elevation_continuity_amended (4/10) (4/10) (by norm_num)).1 rfl,
    (elevation_continuity_amended (1/5) (4/10) (by norm_num)).2 (by norm_num) (by norm_num)⟩

/-- C4.  Threshold monotonicity: for non-negative weights of positive sum
the computed cutoffs satisfy 0 ≤ deepWater ≤ water ≤ sand ≤ mountainStart ≤
snowStart ≤ 1. -/
theorem threshold_monotonicity (w : TerrainWeights) (hw : NonnegWeights w)
    (_hpos : 0 < weightsTotal w) :
    0 ≤ (calculateThresholds w).deepWater ∧
    (calculateThresholds w).deepWater ≤ (calculateThresholds w).water ∧
    (calculateThresholds w).water ≤ (calculateThresholds w).sand ∧
    (calculateThresholds w).sand ≤ (calculateThresholds w).mountainStart ∧
    (calculateThresholds w).mountainStart ≤ (calculateThresholds w).snowStart ∧
    (calculateThresholds w).snowStart ≤ 1 :=
  calculateThresholds_chain w hw

/-- C4 witness: the theorem applied to the default weights. -/
theorem threshold_monotonicity_witness :
    NonnegWeights DEFAULT_TERRAIN_WEIGHTS ∧ 0 < weightsTotal DEFAULT_TERRAIN_WEIGHTS ∧
    (0 ≤ (calculateThresholds DEFAULT_TERRAIN_WEIGHTS).deepWater ∧
    (calculateThresholds DEFAULT_TERRAIN_WEIGHTS).deepWater ≤ (calculateThresholds DEFAULT_TERRAIN_WEIGHTS).water ∧
    (calculateThresholds DEFAULT_TERRAIN_WEIGHTS).water ≤ (calculateThresholds DEFAULT_TERRAIN_WEIGHTS).sand ∧
    (calculateThresholds DEFAULT_TERRAIN_WEIGHTS).sand ≤ (calculateThresholds DEFAULT_TERRAIN_WEIGHTS).mountainStart ∧
    (calculateThresholds DEFAULT_TERRAIN_WEIGHTS).mountainStart ≤ (calculateThresholds DEFAULT_TERRAIN_WEIGHTS).snowStart ∧
    (calculateThresholds DEFAULT_TERRAIN_WEIGHTS).snowStart ≤ 1) :=
  ⟨by decide, by decide, threshold_monotonicity DEFAULT_TERRAIN_WEIGHTS (by decide) (by decide)⟩

/-- C7.  Ring cardinality: getHexRing enumerates exactly 3r(r+1)+1 hexes
for every radius r ≥ 0, and at radius 0 it is the one-element list holding
the center. -/
theorem hexRing_cardinality (center : HexCoordinate) (radius : ℤ) (h : 0 ≤ radius) :
    ((getHexRing center radius).length : ℤ) = 3 * radius * (radius + 1) + 1 ∧
    getHexRing center 0 = [center] := by
  constructor
  · obtain ⟨n, rfl⟩ := Int.eq_ofNat_of_zero_le h
    rw [getHexRing_length_nat]
    push_cast
    ring
  · have hr1 : List.range 1 = [0] := rfl
    simp [getHexRing, intRange, hr1]

/-- C7 witness: the theorem applied at the origin with radius 2 (a disk of
19 hexes). -/
theorem hexRing_cardinality_witness :
    (0 : ℤ) ≤ 2 ∧ (((getHexRing ⟨0, 0⟩ 2).length : ℤ) = 3 * 2 * (2 + 1) + 1 ∧
      getHexRing ⟨0, 0⟩ 0 = [⟨0, 0⟩]) :=
  ⟨by decide, hexRing_cardinality ⟨0, 0⟩ 2 (by decide)⟩

/-- C8.  Rotation closure: applying rotateMoveVector at 60 degrees six
times in succession returns exactly the original movement vector. -/
theorem rotation_closure (dq dr : ℤ) :
    (let v1 := rotateMoveVector dq dr 60
     let v2 := rotateMoveVector v1.q v1.r 60
     let v3 := rotateMoveVector v2.q v2.r 60
     let v4 := rotateMoveVector v3.q v3.r 60
     let v5 := rotateMoveVector v4.q v4.r 60
     rotateMoveVector v5.q v5.r 60) = ⟨dq, dr⟩ := by
  simp only [rotateMoveVector_sixty]
  simp only [HexCoordinate.mk.injEq]
  constructor <;> ring

/-- C9.  Zero-sum weight fallback: when the weights sum to 0 the threshold
computation performs no division and returns exactly the fixed default set. -/
theorem zero_sum_weights_fallback (w : TerrainWeights) (h : weightsTotal w = 0) :
    calculateThresholds w =
      { deepWater := 3/10, water := 4/10, sand := 45/100,
        mountainStart := 85/100, snowStart := 92/100, moistureBias := 0 } := by
  simp only [calculateThresholds, if_pos h]

/-- C9 witness: the theorem applied to the all-zero weights. -/
theorem zero_sum_weights_fallback_witness :
    weightsTotal ⟨0, 0, 0, 0, 0, 0, 0⟩ = 0 ∧
    calculateThresholds ⟨0, 0, 0, 0, 0, 0, 0⟩ =
      { deepWater := 3/10, water := 4/10, sand := 45/100,
        mountainStart := 85/100, snowStart := 92/100, moistureBias := 0 } :=
  ⟨by decide, zero_sum_weights_fallback _ (by decide)⟩

/-- C10.  Implicit underwater elevation band: whenever the sampled height h
satisfies 0 ≤ h < water threshold (threshold non-zero), getElevation lands
in [-5000, -1001] and in particular never in the open band (-1000, 0); the
shoreline depth jumps from 0 on the land side directly to at most -1001. -/
theorem underwater_elevation_band (M : JSMath) (q r : ℤ) (settings : MapSettings) (h : ℚ)
    (hh : (getTerrainData M q r settings).height = h) (h0 : 0 ≤ h)
    (hlt : h < (getTerrainData M q r settings).thresholds.water)
    (_hnz : (getTerrainData M q r settings).thresholds.water ≠ 0) :
    -5000 ≤ getElevation M q r settings ∧ getElevation M q r settings ≤ -1001 ∧
    ¬ (-1000 < getElevation M q r settings ∧ getElevation M q r settings < 0) := by
  have he : getElevation M q r settings =
      elevationFromSample (getTerrainData M q r settings).height
        (getTerrainData M q r settings).thresholds.water := rfl
  rw [he]
  subst hh
  obtain ⟨hlo, hhi⟩ := elevation_underwater_band _ _ h0 hlt
  exact ⟨hlo, hhi, by omega⟩

/-- C10 witness: the theorem applied to a concrete admissible model (every
noise draw 0.2, identity pow) and weights deep 3 / water 1 / grass 6, where
the sampled height is 0.2, the water threshold 0.4, and the elevation
-3000. -/
theorem underwater_elevation_band_witness :
    (getTerrainData (constNoiseModel (1/5)) 0 0 ⟨"", some ⟨3, 1, 0, 6, 0, 0, 0⟩⟩).height = 1/5 ∧
    (-5000 ≤ getElevation (constNoiseModel (1/5)) 0 0 ⟨"", some ⟨3, 1, 0, 6, 0, 0, 0⟩⟩ ∧
     getElevation (constNoiseModel (1/5)) 0 0 ⟨"", some ⟨3, 1, 0, 6, 0, 0, 0⟩⟩ ≤ -1001 ∧
     ¬ (-1000 < getElevation (constNoiseModel (1/5)) 0 0 ⟨"", some ⟨3, 1, 0, 6, 0, 0, 0⟩⟩ ∧
        getElevation (constNoiseModel (1/5)) 0 0 ⟨"", some ⟨3, 1, 0, 6, 0, 0, 0⟩⟩ < 0)) :=
  ⟨by decide,
    underwater_elevation_band (constNoiseModel (1/5)) 0 0 ⟨"", some ⟨3, 1, 0, 6, 0, 0, 0⟩⟩ (1/5)
      (by decide) (by norm_num) (by decide) (by decide)⟩

/-- With only the DEEP_WATER weight set, every cutoff collapses to 1. -/
theorem thresholds_deepWaterOnly : calculateThresholds deepWaterOnly = ⟨1, 1, 1, 1, 1, 0⟩ := by
  decide

/-- The sample thresholds are exactly the computed thresholds of the
(defaulted) weights. -/
theorem getTerrainData_thresholds (M : JSMath) (q r : ℤ) (settings : MapSettings) :
    (getTerrainData M q r settings).thresholds =
      calculateThresholds (settings.terrainWeights.getD DEFAULT_TERRAIN_WEIGHTS) := rfl

/-- Under the deep-water-only weights the river branch cannot fire and, as
long as the island channel stays at or below 0.85, the sampled height stays
strictly below 1. -/
theorem getTerrainData_deepWaterOnly (M : JSMath) (q r : ℤ) (seed : String)
    (hpow : ∀ x, 0 ≤ x → x < 1 → M.pow12 x < 1)
    (hisl : islandNoiseAt M q r seed ≤ 85/100) :
    (getTerrainData M q r ⟨seed, some deepWaterOnly⟩).isRiver = false ∧
    (getTerrainData M q r ⟨seed, some deepWaterOnly⟩).height < 1 := by
  have hf0 := fbm_nonneg M ((getNoiseCoordinates M q r).1 * (15/1000))
    ((getNoiseCoordinates M q r).2 * (15/1000)) 6 (1/2) 2 (seedValOf seed)
    (by norm_num) (by norm_num)
  have hf1 := fbm_lt_one M ((getNoiseCoordinates M q r).1 * (15/1000))
    ((getNoiseCoordinates M q r).2 * (15/1000)) 6 (1/2) 2 (seedValOf seed)
    (by norm_num) (by norm_num)
  have h1lt : M.pow12 (fbm M ((getNoiseCoordinates M q r).1 * (15/1000))
      ((getNoiseCoordinates M q r).2 * (15/1000)) 6 (1/2) 2 (seedValOf seed)) < 1 :=
    hpow _ hf0 hf1
  unfold getTerrainData
  simp only [Option.getD_some, thresholds_deepWaterOnly]
  constructor
  · split_ifs with h1 h2 <;> first
      | rfl
      | exact absurd h1.1 (not_lt.mpr h1lt.le)
  · split_ifs with h1 h2 h3 h4 h5 h6 <;> first
      | exact absurd h1.1 (not_lt.mpr h1lt.le)
      | exact absurd h2 (not_lt.mpr hisl)
      | exact absurd h3 (not_lt.mpr hisl)
      | exact absurd h4 (not_lt.mpr hisl)
      | exact absurd h5 (not_lt.mpr hisl)
      | exact absurd h6 (not_lt.mpr hisl)
      | exact h1lt

/-- C3 (amended).  With DEEP_WATER = 1 and all other weights 0, river
carving can never trigger (it would need a height above the collapsed water
cutoff 1, while fbm heights stay below 1), and every hex whose island noise
channel stays at or below the 0.85 cutoff classifies as DEEP_WATER.  Hexes
where the island channel exceeds 0.85 are promoted to the sand cutoff and
classify differently (see the counterexample). -/
theorem deep_water_only_amended (M : JSMath) (q r : ℤ) (seed : String)
    (hpow : ∀ x, 0 ≤ x → x < 1 → M.pow12 x < 1)
    (hisl : islandNoiseAt M q r seed ≤ 85/100) :
    getTerrain M q r ⟨seed, some deepWaterOnly⟩ = TerrainType.DEEP_WATER := by
  obtain ⟨hriver, hheight⟩ := getTerrainData_deepWaterOnly M q r seed hpow hisl
  unfold getTerrain
  dsimp only
  rw [getTerrainData_thresholds]
  simp [hriver, Option.getD_some, thresholds_deepWaterOnly, hheight]

/-- C3 counterexample.  The claim that every hex classifies as DEEP_WATER
under the deep-water-only weights is false: in the admissible model where
every noise draw is 0.9 the island branch fires at (0, 0) (island noise 0.9
exceeds 0.85), the height is promoted to the collapsed sand cutoff 1, and
the classifier returns FOREST. -/
theorem deep_water_only_counterexample :
    getTerrain (constNoiseModel (9/10)) 0 0 ⟨"", some deepWaterOnly⟩ = TerrainType.FOREST ∧
    getTerrain (constNoiseModel (9/10)) 0 0 ⟨"", some deepWaterOnly⟩ ≠ TerrainType.DEEP_WATER := by
  constructor <;> decide

/-- C3 witness: the amended theorem applied to the admissible model with
every noise draw 0.2 at the origin (island noise 0.2 ≤ 0.85). -/
theorem deep_water_only_amended_witness :
    islandNoiseAt (constNoiseModel (1/5)) 0 0 "" ≤ 85/100 ∧
    getTerrain (constNoiseModel (1/5)) 0 0 ⟨"", some deepWaterOnly⟩ = TerrainType.DEEP_WATER :=
  ⟨by decide,
    deep_water_only_amended (constNoiseModel (1/5)) 0 0 "" (fun _ _ hx => hx) (by decide)⟩

/-- C5 (amended).  For non-negative weights the ephemeral sample satisfies
moisture in [0, 1] always and -0.02 ≤ height ≤ 1; height is non-negative
whenever the water threshold is at least 0.02 (in particular for the
default weights).  The only way height can dip below 0 is the river carve,
which writes water-threshold - 0.02, negative exactly when the water cutoff
is below 0.02 - see the counterexample. -/
theorem sample_range_amended (M : JSMath) (q r : ℤ) (settings : MapSettings)
    (hp0 : ∀ x, 0 ≤ x → 0 ≤ M.pow12 x)
    (hp1 : ∀ x, 0 ≤ x → x ≤ 1 → M.pow12 x ≤ 1)
    (hw : NonnegWeights (settings.terrainWeights.getD DEFAULT_TERRAIN_WEIGHTS)) :
    (0 ≤ (getTerrainData M q r settings).moisture ∧
      (getTerrainData M q r settings).moisture ≤ 1) ∧
    (-2/100 ≤ (getTerrainData M q r settings).height ∧
      (getTerrainData M q r settings).height ≤ 1) ∧
    (2/100 ≤ (getTerrainData M q r settings).thresholds.water →
      0 ≤ (getTerrainData M q r settings).height) := by
  obtain ⟨c0, c1, c2, c3, c4, c5⟩ := calculateThresholds_chain _ hw
  have hf0 := fbm_nonneg M ((getNoiseCoordinates M q r).1 * (15/1000))
    ((getNoiseCoordinates M q r).2 * (15/1000)) 6 (1/2) 2 (seedValOf settings.seed)
    (by norm_num) (by norm_num)
  have hf1 := fbm_lt_one M ((getNoiseCoordinates M q r).1 * (15/1000))
    ((getNoiseCoordinates M q r).2 * (15/1000)) 6 (1/2) 2 (seedValOf settings.seed)
    (by norm_num) (by norm_num)
  have hh0 : 0 ≤ M.pow12 (fbm M ((getNoiseCoordinates M q r).1 * (15/1000))
      ((getNoiseCoordinates M q r).2 * (15/1000)) 6 (1/2) 2 (seedValOf settings.seed)) :=
    hp0 _ hf0
  have hh1 : M.pow12 (fbm M ((getNoiseCoordinates M q r).1 * (15/1000))
      ((getNoiseCoordinates M q r).2 * (15/1000)) 6 (1/2) 2 (seedValOf settings.seed)) ≤ 1 :=
    hp1 _ hf0 hf1.le
  unfold getTerrainData
  dsimp only
  refine ⟨⟨le_max_left _ _, max_le (by norm_num) (min_le_left _ _)⟩, ⟨?_, ?_⟩, ?_⟩
  · split_ifs <;> (try dsimp only) <;> linarith
  · split_ifs <;> (try dsimp only) <;> linarith
  · intro hwge
    split_ifs <;> (try dsimp only) <;> linarith

/-- C5 counterexample.  The sampled height is not always in [0, 1]: with
every noise draw 0.5, identity pow, and weights water 1 / grass 99 (water
threshold 0.01), the hex (0, 0) is river-carved to height 0.01 - 0.02 =
-0.01 < 0. -/
theorem sample_range_counterexample :
    (getTerrainData (constNoiseModel (1/2)) 0 0 ⟨"", some ⟨0, 1, 0, 99, 0, 0, 0⟩⟩).height = -1/100 ∧
    (getTerrainData (constNoiseModel (1/2)) 0 0 ⟨"", some ⟨0, 1, 0, 99, 0, 0, 0⟩⟩).height < 0 := by
  constructor <;> decide

/-- C5 witness: the amended theorem applied to the model with every noise
draw 0.2, identity pow, and the default weights. -/
theorem sample_range_amended_witness :
    NonnegWeights ((some DEFAULT_TERRAIN_WEIGHTS).getD DEFAULT_TERRAIN_WEIGHTS) ∧
    ((0 ≤ (getTerrainData (constNoiseModel (1/5)) 0 0 ⟨"", some DEFAULT_TERRAIN_WEIGHTS⟩).moisture ∧
      (getTerrainData (constNoiseModel (1/5)) 0 0 ⟨"", some DEFAULT_TERRAIN_WEIGHTS⟩).moisture ≤ 1) ∧
    (-2/100 ≤ (getTerrainData (constNoiseModel (1/5)) 0 0 ⟨"", some DEFAULT_TERRAIN_WEIGHTS⟩).height ∧
      (getTerrainData (constNoiseModel (1/5)) 0 0 ⟨"", some DEFAULT_TERRAIN_WEIGHTS⟩).height ≤ 1) ∧
    (2/100 ≤ (getTerrainData (constNoiseModel (1/5)) 0 0 ⟨"", some DEFAULT_TERRAIN_WEIGHTS⟩).thresholds.water →
      0 ≤ (getTerrainData (constNoiseModel (1/5)) 0 0 ⟨"", some DEFAULT_TERRAIN_WEIGHTS⟩).height)) :=
  ⟨by decide,
    sample_range_amended (constNoiseModel (1/5)) 0 0 ⟨"", some DEFAULT_TERRAIN_WEIGHTS⟩
      (fun _ hx => hx) (fun _ _ hx => hx) (by decide)⟩

/-- A count roll mapped through floor lands strictly below the multiplier. -/
theorem floor_rand_mul_lt (q r : ℤ) (seed context : String) (k : ℕ) (c : ℚ)
    (hc : c = k) (hk : 0 < k) :
    (⌊getDeterministicRandom q r seed context * c⌋).toNat < k := by
  have h1 := getDeterministicRandom_lt_one q r seed context
  have h0 := getDeterministicRandom_nonneg q r seed context
  have hk0 : (0 : ℚ) < k := by exact_mod_cast hk
  have hmul : getDeterministicRandom q r seed context * c < k := by
    rw [hc]
    nlinarith
  have hfl : ⌊getDeterministicRandom q r seed context * c⌋ < (k : ℤ) :=
    Int.floor_lt.mpr (by exact_mod_cast hmul)
  omega

/-- Specification of one sampler category: an output that is either empty
or the first min(k, n) elements of the deterministic shuffle is a prefix of
that shuffle, the shuffle permutes the source list, the output length is
bounded by the count cap, and distinctness of the source carries over. -/
theorem sampler_category_spec {α : Type} (src : List α) (q r : ℤ) (seed salt : String)
    (res : List α) (cap : ℕ)
    (hres : res = [] ∨ ∃ k : ℕ, k ≤ cap ∧
      res = (shuffleDeterministic src q r seed salt).take
        (min k (shuffleDeterministic src q r seed salt).length)) :
    res <+: shuffleDeterministic src q r seed salt ∧
    (shuffleDeterministic src q r seed salt).Perm src ∧
    res.length ≤ cap ∧ (src.Nodup → res.Nodup) := by
  refine ⟨?_, shuffleDeterministic_perm src q r seed salt, ?_, ?_⟩
  · rcases hres with rfl | ⟨k, hk, rfl⟩
    · exact List.nil_prefix
    · exact List.take_prefix _ _
  · rcases hres with rfl | ⟨k, hk, rfl⟩
    · simp
    · rw [List.length_take]
      omega
  · intro hnd
    rcases hres with rfl | ⟨k, hk, rfl⟩
    · exact List.nodup_nil
    · exact List.Nodup.sublist (List.take_sublist _ _)
        (((shuffleDeterministic_perm src q r seed salt).nodup_iff).mpr hnd)

/-- C6 (amended).  Resource sampling without replacement with bounded
counts: when the resource table has an entry for the terrain, each of the
four output lists is a prefix of the deterministic Fisher-Yates shuffle of
the combined list for that category; the shuffle is a permutation of the
combined list (so output entries are elements of it, pairwise distinct at
distinct positions, and pairwise-distinct values whenever the combined list
itself has no duplicate entries - see the counterexample for a duplicated
list); the lengths are at most 4 / 3 / 2 / 2 for vegetation / animals /
minerals / rare stones. -/
theorem resource_sampler_amended {α : Type} (q r : ℤ) (seed : String) (terrain : TerrainType)
    (resourceData : TerrainType → Option (BiomeResourceData α))
    (globalBiomeConfig : Option (GlobalBiomeConfig α))
    (td : BiomeResourceData α) (hlook : resourceData terrain = some td) :
    ((getHexResources q r seed terrain resourceData globalBiomeConfig).vegetation <+:
        shuffleDeterministic (combineResources td globalBiomeConfig).vegetation q r seed "veg_shuffle" ∧
      (shuffleDeterministic (combineResources td globalBiomeConfig).vegetation q r seed "veg_shuffle").Perm
        (combineResources td globalBiomeConfig).vegetation ∧
      (getHexResources q r seed terrain resourceData globalBiomeConfig).vegetation.length ≤ 4 ∧
      ((combineResources td globalBiomeConfig).vegetation.Nodup →
        (getHexResources q r seed terrain resourceData globalBiomeConfig).vegetation.Nodup)) ∧
    ((getHexResources q r seed terrain resourceData globalBiomeConfig).animals <+:
        shuffleDeterministic (combineResources td globalBiomeConfig).animals q r seed "anim_shuffle" ∧
      (shuffleDeterministic (combineResources td globalBiomeConfig).animals q r seed "anim_shuffle").Perm
        (combineResources td globalBiomeConfig).animals ∧
      (getHexResources q r seed terrain resourceData globalBiomeConfig).animals.length ≤ 3 ∧
      ((combineResources td globalBiomeConfig).animals.Nodup →
        (getHexResources q r seed terrain resourceData globalBiomeConfig).animals.Nodup)) ∧
    ((getHexResources q r seed terrain resourceData globalBiomeConfig).minerals <+:
        shuffleDeterministic (combineResources td globalBiomeConfig).mineral_resources q r seed "min_shuffle" ∧
      (shuffleDeterministic (combineResources td globalBiomeConfig).mineral_resources q r seed "min_shuffle").Perm
        (combineResources td globalBiomeConfig).mineral_resources ∧
      (getHexResources q r seed terrain resourceData globalBiomeConfig).minerals.length ≤ 2 ∧
      ((combineResources td globalBiomeConfig).mineral_resources.Nodup →
        (getHexResources q r seed terrain resourceData globalBiomeConfig).minerals.Nodup)) ∧
    ((getHexResources q r seed terrain resourceData globalBiomeConfig).rareStones <+:
        shuffleDeterministic (combineResources td globalBiomeConfig).rare_stones q r seed "rare_shuffle" ∧
      (shuffleDeterministic (combineResources td globalBiomeConfig).rare_stones q r seed "rare_shuffle").Perm
        (combineResources td globalBiomeConfig).rare_stones ∧
      (getHexResources q r seed terrain resourceData globalBiomeConfig).rareStones.length ≤ 2 ∧
      ((combineResources td globalBiomeConfig).rare_stones.Nodup →
        (getHexResources q r seed terrain resourceData globalBiomeConfig).rareStones.Nodup)) := by
  have hveg : (getHexResources q r seed terrain resourceData globalBiomeConfig).vegetation = [] ∨
      ∃ k : ℕ, k ≤ 4 ∧ (getHexResources q r seed terrain resourceData globalBiomeConfig).vegetation =
        (shuffleDeterministic (combineResources td globalBiomeConfig).vegetation q r seed "veg_shuffle").take
          (min k (shuffleDeterministic (combineResources td globalBiomeConfig).vegetation q r seed "veg_shuffle").length) := by
    unfold getHexResources
    rw [hlook]
    dsimp only
    split_ifs <;> first
      | (left; rfl)
      | (right
         refine ⟨(⌊getDeterministicRandom q r seed "veg_count" * 4⌋).toNat + 1, ?_, rfl⟩
         have := floor_rand_mul_lt q r seed "veg_count" 4 4 (by norm_num) (by norm_num)
         omega)
  have hanim : (getHexResources q r seed terrain resourceData globalBiomeConfig).animals = [] ∨
      ∃ k : ℕ, k ≤ 3 ∧ (getHexResources q r seed terrain resourceData globalBiomeConfig).animals =
        (shuffleDeterministic (combineResources td globalBiomeConfig).animals q r seed "anim_shuffle").take
          (min k (shuffleDeterministic (combineResources td globalBiomeConfig).animals q r seed "anim_shuffle").length) := by
    unfold getHexResources
    rw [hlook]
    dsimp only
    split_ifs <;> first
      | (left; rfl)
      | (right
         refine ⟨(⌊getDeterministicRandom q r seed "anim_count" * 3⌋).toNat + 1, ?_, rfl⟩
         have := floor_rand_mul_lt q r seed "anim_count" 3 3 (by norm_num) (by norm_num)
         omega)
  have hmin : (getHexResources q r seed terrain resourceData globalBiomeConfig).minerals = [] ∨
      ∃ k : ℕ, k ≤ 2 ∧ (getHexResources q r seed terrain resourceData globalBiomeConfig).minerals =
        (shuffleDeterministic (combineResources td globalBiomeConfig).mineral_resources q r seed "min_shuffle").take
          (min k (shuffleDeterministic (combineResources td globalBiomeConfig).mineral_resources q r seed "min_shuffle").length) := by
    unfold getHexResources
    rw [hlook]
    dsimp only
    split_ifs <;> first
      | (left; rfl)
      | (right
         refine ⟨(⌊getDeterministicRandom q r seed "min_count" * 2⌋).toNat + 1, ?_, rfl⟩
         have := floor_rand_mul_lt q r seed "min_count" 2 2 (by norm_num) (by norm_num)
         omega)
  have hrare : (getHexResources q r seed terrain resourceData globalBiomeConfig).rareStones = [] ∨
      ∃ k : ℕ, k ≤ 2 ∧ (getHexResources q r seed terrain resourceData globalBiomeConfig).rareStones =
        (shuffleDeterministic (combineResources td globalBiomeConfig).rare_stones q r seed "rare_shuffle").take
          (min k (shuffleDeterministic (combineResources td globalBiomeConfig).rare_stones q r seed "rare_shuffle").length) := by
    unfold getHexResources
    rw [hlook]
    dsimp only
    split_ifs <;> first
      | (left; rfl)
      | (right; exact ⟨2, by norm_num, rfl⟩)
      | (right; exact ⟨1, by norm_num, rfl⟩)
  exact ⟨sampler_category_spec _ q r seed "veg_shuffle" _ 4 hveg,
    sampler_category_spec _ q r seed "anim_shuffle" _ 3 hanim,
    sampler_category_spec _ q r seed "min_shuffle" _ 2 hmin,
    sampler_category_spec _ q r seed "rare_shuffle" _ 2 hrare⟩

/-- C6 counterexample.  The output entries are not always pairwise
distinct: at hex (1, 0) with the empty seed the vegetation draw picks more
than one item, so a combined vegetation list with a duplicated entry yields
the output [0, 0]. -/
theorem resource_sampler_counterexample :
    (getHexResources 1 0 "" TerrainType.GRASS
        (fun _ => some (⟨[], [], [], [0, 0]⟩ : BiomeResourceData ℕ)) none).vegetation = [0, 0] ∧
    ¬ (getHexResources 1 0 "" TerrainType.GRASS
        (fun _ => some (⟨[], [], [], [0, 0]⟩ : BiomeResourceData ℕ)) none).vegetation.Nodup := by
  constructor <;> decide

/-- C6 witness: the amended theorem applied at hex (1, 0), empty seed,
GRASS terrain, the concrete table rdWitness and no global biome config. -/
theorem resource_sampler_amended_witness :
    (fun _ : TerrainType => some rdWitness) TerrainType.GRASS = some rdWitness ∧
    (((getHexResources 1 0 "" TerrainType.GRASS (fun _ => some rdWitness) none).vegetation <+:
        shuffleDeterministic (combineResources rdWitness none).vegetation 1 0 "" "veg_shuffle" ∧
      (shuffleDeterministic (combineResources rdWitness none).vegetation 1 0 "" "veg_shuffle").Perm
        (combineResources rdWitness none).vegetation ∧
      (getHexResources 1 0 "" TerrainType.GRASS (fun _ => some rdWitness) none).vegetation.length ≤ 4 ∧
      ((combineResources rdWitness none).vegetation.Nodup →
        (getHexResources 1 0 "" TerrainType.GRASS (fun _ => some rdWitness) none).vegetation.Nodup)) ∧
    ((getHexResources 1 0 "" TerrainType.GRASS (fun _ => some rdWitness) none).animals <+:
        shuffleDeterministic (combineResources rdWitness none).animals 1 0 "" "anim_shuffle" ∧
      (shuffleDeterministic (combineResources rdWitness none).animals 1 0 "" "anim_shuffle").Perm
        (combineResources rdWitness none).animals ∧
      (getHexResources 1 0 "" TerrainType.GRASS (fun _ => some rdWitness) none).animals.length ≤ 3 ∧
      ((combineResources rdWitness none).animals.Nodup →
        (getHexResources 1 0 "" TerrainType.GRASS (fun _ => some rdWitness) none).animals.Nodup)) ∧
    ((getHexResources 1 0 "" TerrainType.GRASS (fun _ => some rdWitness) none).minerals <+:
        shuffleDeterministic (combineResources rdWitness none).mineral_resources 1 0 "" "min_shuffle" ∧
      (shuffleDeterministic (combineResources rdWitness none).mineral_resources 1 0 "" "min_shuffle").Perm
        (combineResources rdWitness none).mineral_resources ∧
      (getHexResources 1 0 "" TerrainType.GRASS (fun _ => some rdWitness) none).minerals.length ≤ 2 ∧
      ((combineResources rdWitness none).mineral_resources.Nodup →
        (getHexResources 1 0 "" TerrainType.GRASS (fun _ => some rdWitness) none).minerals.Nodup)) ∧
    ((getHexResources 1 0 "" TerrainType.GRASS (fun _ => some rdWitness) none).rareStones <+:
        shuffleDeterministic (combineResources rdWitness none).rare_stones 1 0 "" "rare_shuffle" ∧
      (shuffleDeterministic (combineResources rdWitness none).rare_stones 1 0 "" "rare_shuffle").Perm
        (combineResources rdWitness none).rare_stones ∧
      (getHexResources 1 0 "" TerrainType.GRASS (fun _ => some rdWitness) none).rareStones.length ≤ 2 ∧
      ((combineResources rdWitness none).rare_stones.Nodup →
        (getHexResources 1 0 "" TerrainType.GRASS (fun _ => some rdWitness) none).rareStones.Nodup))) :=
  ⟨rfl, resource_sampler_amended 1 0 "" TerrainType.GRASS (fun _ => some rdWitness) none
    rdWitness rfl⟩

end MapGame
